import Mathlib

/-!
Verification of the truck travel-time / rest-stop estimation heuristic of the
Logistics-management-system repository (`src/src/App.tsx`, function
`calculateTruckDuration`, lines 91-160).

The JavaScript number arithmetic of the source is embedded over `ℚ` (all the
constants of the heuristic are exactly representable, and `Math.round x` in
JavaScript is `⌊x + 1/2⌋`, which is Mathlib's `round`; `Math.floor` is
`Int.floor`).  Minute totals and rest-stop counts are integers (`ℤ`).
-/

namespace Logistics

/-- Result record of the estimator: `{ duration, restStops }` as returned by
`calculateTruckDuration` in `App.tsx`. -/
structure DurationEstimate where
  duration : ℤ
  restStops : ℤ
  deriving DecidableEq, Repr

/-- The `truckSpeeds` table of `App.tsx` lines 107-113 (km/h per road class). -/
structure TruckSpeeds where
  motorway : ℚ
  trunk : ℚ
  primary : ℚ
  secondary : ℚ
  residential : ℚ
  deriving Repr

/-- The `timeFactors` table of `App.tsx` lines 116-120 (`1.4`, `1.2`, `1.1`). -/
structure TimeFactors where
  peakHours : ℚ
  normal : ℚ
  nighttime : ℚ
  deriving Repr

/-- The `truckFactors` record of `App.tsx` lines 123-127 (delays in minutes,
two of them depending on the distance). -/
structure TruckFactors where
  loadingUnloading : ℚ
  cityAccess : ℚ
  weightStations : ℚ
  deriving Repr

/-- `calculateTruckDuration` of `App.tsx` lines 91-160, embedded over `ℚ`.
`0.2 = 2/10`, `1.2 = 6/5`, `4.5 = 9/2` exactly; `Math.round` is `round`,
`Math.floor` is `Int.floor`.  The `routeType` parameter is accepted and, as in
the source, never read. -/
def calculateTruckDuration (distance : ℚ) (routeType : String) : DurationEstimate :=
  -- Short distance calculation (urban delivery)
  if distance ≤ 15 then
    let baseMinutes : ℚ := (distance / 25) * 60
    let loadUnloadTime : ℚ := 15
    let trafficBuffer : ℚ := baseMinutes * (2 / 10)
    { duration := round (baseMinutes + loadUnloadTime + trafficBuffer)
      restStops := 0 }
  else
    -- Regular calculation for longer distances
    let truckSpeeds : TruckSpeeds :=
      { motorway := 80, trunk := 60, primary := 50, secondary := 40, residential := 30 }
    let timeFactors : TimeFactors :=
      { peakHours := 7 / 5, normal := 6 / 5, nighttime := 11 / 10 }
    let truckFactors : TruckFactors :=
      { loadingUnloading := if distance > 50 then 30 else 20
        cityAccess := if distance > 30 then 20 else 10
        weightStations := 15 }
    -- Calculate base speed based on distance
    let baseSpeed : ℚ :=
      if distance > 100 then truckSpeeds.motorway
      else if distance > 50 then truckSpeeds.trunk
      else truckSpeeds.primary
    -- Calculate required rest stops (4.5 hours driving, 45 min rest)
    let drivingHours : ℚ := distance / baseSpeed
    let restStops : ℤ := ⌊drivingHours / (9 / 2)⌋
    let restTime : ℚ := (restStops : ℚ) * 45
    -- Calculate total duration
    let duration1 : ℚ := (distance / baseSpeed) * 60
    let duration2 : ℚ := duration1 * timeFactors.normal
    let duration3 : ℚ := duration2 + restTime
    let duration4 : ℚ := duration3 + truckFactors.loadingUnloading
    let duration5 : ℚ := if distance < 50 then duration4 + truckFactors.cityAccess else duration4
    let duration6 : ℚ := if distance > 100 then duration5 + truckFactors.weightStations else duration5
    { duration := round duration6
      restStops := restStops }

/-! ### Decomposition of the long-haul branch

Named components of the long-haul computation, read off the same source lines,
used to state claims about individual delays and tiers.  The lemma
`calculateTruckDuration_long` proves that the estimator factors through them. -/

/-- The base-speed tier selection of `App.tsx` lines 130-135. -/
def baseSpeedOf (d : ℚ) : ℚ :=
  if d > 100 then 80 else if d > 50 then 60 else 50

/-- The `loadingUnloading` delay of `App.tsx` line 124. -/
def loadingUnloadingOf (d : ℚ) : ℚ :=
  if d > 50 then 30 else 20

/-- The `cityAccess` delay of `App.tsx` line 125. -/
def cityAccessOf (d : ℚ) : ℚ :=
  if d > 30 then 20 else 10

/-- The rest-stop count of `App.tsx` line 139: `Math.floor((d / baseSpeed) / 4.5)`. -/
def restStopsOf (d : ℚ) : ℤ :=
  ⌊(d / baseSpeedOf d) / (9 / 2)⌋

/-- Long-haul total before rounding, with the city-access term split off:
base driving time times the normal factor `1.2`, plus rest time, the
loading/unloading delay, and the weight-station delay when `d > 100`. -/
def longHaulPreCity (d : ℚ) : ℚ :=
  (d / baseSpeedOf d) * 60 * (6 / 5) + (restStopsOf d : ℚ) * 45 + loadingUnloadingOf d
    + (if d > 100 then (15 : ℚ) else 0)

/-- Long-haul total before rounding, with the rest-time term split off. -/
def longHaulNoRest (d : ℚ) : ℚ :=
  (d / baseSpeedOf d) * 60 * (6 / 5) + loadingUnloadingOf d
    + (if d < 50 then cityAccessOf d else 0) + (if d > 100 then (15 : ℚ) else 0)

/-- Short-haul total before rounding (`App.tsx` lines 96-101):
base minutes at 25 km/h, 15 min load/unload, 20 % traffic buffer. -/
def shortHaulTotal (d : ℚ) : ℚ :=
  (d / 25) * 60 + 15 + ((d / 25) * 60) * (2 / 10)

lemma calculateTruckDuration_short (d : ℚ) (rt : String) (hd : d ≤ 15) :
    calculateTruckDuration d rt = ⟨round (shortHaulTotal d), 0⟩ := by
  simp only [calculateTruckDuration, if_pos hd, shortHaulTotal]

lemma calculateTruckDuration_long (d : ℚ) (rt : String) (hd : ¬ d ≤ 15) :
    calculateTruckDuration d rt =
      ⟨round (longHaulPreCity d + (if d < 50 then cityAccessOf d else 0)), restStopsOf d⟩ := by
  simp only [calculateTruckDuration, if_neg hd, longHaulPreCity, restStopsOf, baseSpeedOf,
    loadingUnloadingOf, cityAccessOf]
  congr 1
  by_cases h100 : d > 100 <;> by_cases h50 : d < 50 <;>
    simp only [h100, h50, if_true, if_false] <;> (congr 1 ; ring)

lemma duration_short (d : ℚ) (rt : String) (hd : d ≤ 15) :
    (calculateTruckDuration d rt).duration = round (shortHaulTotal d) := by
  rw [calculateTruckDuration_short d rt hd]

lemma restStops_short (d : ℚ) (rt : String) (hd : d ≤ 15) :
    (calculateTruckDuration d rt).restStops = 0 := by
  rw [calculateTruckDuration_short d rt hd]

lemma duration_long (d : ℚ) (rt : String) (hd : ¬ d ≤ 15) :
    (calculateTruckDuration d rt).duration =
      round (longHaulPreCity d + (if d < 50 then cityAccessOf d else 0)) := by
  rw [calculateTruckDuration_long d rt hd]

lemma restStops_long (d : ℚ) (rt : String) (hd : ¬ d ≤ 15) :
    (calculateTruckDuration d rt).restStops = restStopsOf d := by
  rw [calculateTruckDuration_long d rt hd]

lemma preCity_city_eq_noRest (d : ℚ) :
    longHaulPreCity d + (if d < 50 then cityAccessOf d else 0)
      = longHaulNoRest d + (restStopsOf d : ℚ) * 45 := by
  unfold longHaulPreCity longHaulNoRest
  ring

lemma baseSpeedOf_pos (d : ℚ) : 0 < baseSpeedOf d := by
  unfold baseSpeedOf
  split_ifs <;> norm_num

lemma round_rat_mono {x y : ℚ} (h : x ≤ y) : round x ≤ round y := by
  rw [round_eq, round_eq]
  exact Int.floor_le_floor (by linarith)

/-! ### Claims -/

/-- C1, counterexample.  The claim says every distance in (15, 50) receives a
city-access delay of exactly 20 minutes.  At distance 20 km the code adds only
10 minutes (the `cityAccess` factor is `distance > 30 ? 20 : 10`): the total is
59 minutes, while a 20-minute city-access delay on top of the remaining
components would give 69 minutes. -/
theorem C1_counterexample :
    (calculateTruckDuration 20 "hint").duration = 59 ∧
      round (longHaulPreCity 20 + 20) = 69 ∧
      (calculateTruckDuration 20 "hint").duration ≠ round (longHaulPreCity 20 + 20) := by
  have h1 : (calculateTruckDuration 20 "hint").duration = 59 := by
    norm_num [calculateTruckDuration, round_eq]
  have h2 : longHaulPreCity 20 = 244 / 5 := by
    norm_num [longHaulPreCity, restStopsOf, baseSpeedOf, loadingUnloadingOf]
  refine ⟨h1, ?_, ?_⟩ <;> rw [h2] <;> norm_num [round_eq]
  rw [h1]
  norm_num

/-- C1, amended: the city-access delay added to the long-haul total is
20 minutes only for distances in (30, 50); for distances in (15, 30] it is
10 minutes; for distances of 50 km or more no city-access delay is added. -/
theorem C1_city_access_delay (d : ℚ) (rt : String) :
    (30 < d → d < 50 →
      (calculateTruckDuration d rt).duration = round (longHaulPreCity d + 20)) ∧
    (15 < d → d ≤ 30 →
      (calculateTruckDuration d rt).duration = round (longHaulPreCity d + 10)) ∧
    (50 ≤ d →
      (calculateTruckDuration d rt).duration = round (longHaulPreCity d)) := by
  refine ⟨fun h30 h50 => ?_, fun h15 h30 => ?_, fun h50 => ?_⟩
  · rw [duration_long d rt (by linarith), if_pos h50]
    unfold cityAccessOf
    rw [if_pos h30]
  · rw [duration_long d rt (by linarith), if_pos (by linarith : d < 50)]
    unfold cityAccessOf
    rw [if_neg (by linarith : ¬ d > 30)]
  · rw [duration_long d rt (by linarith), if_neg (by linarith : ¬ d < 50), add_zero]

/-- C1, witness: the three amended delay regimes at distances 40, 20 and 60. -/
theorem C1_witness :
    (calculateTruckDuration 40 "a").duration = round (longHaulPreCity 40 + 20) ∧
      (calculateTruckDuration 20 "a").duration = round (longHaulPreCity 20 + 10) ∧
      (calculateTruckDuration 60 "a").duration = round (longHaulPreCity 60) :=
  ⟨(C1_city_access_delay 40 "a").1 (by norm_num) (by norm_num),
    (C1_city_access_delay 20 "a").2.1 (by norm_num) (by norm_num),
    (C1_city_access_delay 60 "a").2.2 (by norm_num)⟩

/-- C2: at exactly 400 km the estimator returns 450 total minutes and one rest
stop (motorway tier, base speed 80: 300 driving minutes times 1.2, plus 45 rest
minutes, 30 loading minutes and 15 weight-station minutes). -/
theorem C2_distance_400 (rt : String) :
    calculateTruckDuration 400 rt = ⟨450, 1⟩ := by
  norm_num [calculateTruckDuration, round_eq]

/-- C3: for every distance above 15 km the rest-stop count is
`⌊(d / baseSpeed) / 4.5⌋` for the selected tier speed (so a partial 4.5-hour
segment never adds a stop), and the total is the rest-free total plus exactly
`restStops * 45` rest minutes. -/
theorem C3_rest_stops (d : ℚ) (rt : String) (h : 15 < d) :
    (calculateTruckDuration d rt).restStops = ⌊(d / baseSpeedOf d) / (9 / 2)⌋ ∧
      (calculateTruckDuration d rt).duration =
        round (longHaulNoRest d + ((calculateTruckDuration d rt).restStops : ℚ) * 45) := by
  have hd : ¬ d ≤ 15 := by linarith
  refine ⟨restStops_long d rt hd, ?_⟩
  rw [duration_long d rt hd, restStops_long d rt hd, preCity_city_eq_noRest]

/-- C3, witness at 400 km (rest-stop count 1). -/
theorem C3_witness :
    (calculateTruckDuration 400 "b").restStops = ⌊((400 : ℚ) / baseSpeedOf 400) / (9 / 2)⌋ ∧
      (calculateTruckDuration 400 "b").duration =
        round (longHaulNoRest 400 + (((calculateTruckDuration 400 "b").restStops : ℤ) : ℚ) * 45) :=
  C3_rest_stops 400 "b" (by norm_num)

/-- C4: the tier comparisons at 50 and 100 km are strict.  At exactly 50 km the
primary speed 50 and the 20-minute loading delay apply (total
`round(50/50*60*1.2 + 20) = 92`), and at exactly 100 km the trunk speed 60
applies with no weight-station delay (total `round(100/60*60*1.2 + 30) = 150`). -/
theorem C4_tier_boundaries (rt : String) :
    baseSpeedOf 50 = 50 ∧ loadingUnloadingOf 50 = 20 ∧
      calculateTruckDuration 50 rt = ⟨92, 0⟩ ∧
      round ((50 : ℚ) / 50 * 60 * (6 / 5) + 20) = 92 ∧
      baseSpeedOf 100 = 60 ∧ loadingUnloadingOf 100 = 30 ∧
      calculateTruckDuration 100 rt = ⟨150, 0⟩ ∧
      round ((100 : ℚ) / 60 * 60 * (6 / 5) + 30) = 150 := by
  refine ⟨by norm_num [baseSpeedOf], by norm_num [loadingUnloadingOf], ?_, ?_,
    by norm_num [baseSpeedOf], by norm_num [loadingUnloadingOf], ?_, ?_⟩ <;>
    norm_num [calculateTruckDuration, round_eq]

/-- C5: every distance `0 ≤ d ≤ 15` takes the short-haul branch:
no rest stops and total `round((d/25)*60 + 15 + 0.2*((d/25)*60))`;
in particular the total at 15 km is 58 minutes. -/
theorem C5_short_haul (d : ℚ) (rt : String) (h0 : 0 ≤ d) (h15 : d ≤ 15) :
    calculateTruckDuration d rt =
        ⟨round ((d / 25) * 60 + 15 + (2 / 10) * ((d / 25) * 60)), 0⟩ ∧
      (calculateTruckDuration 15 rt).duration = 58 := by
  constructor
  · rw [calculateTruckDuration_short d rt h15]
    congr 2
    unfold shortHaulTotal
    ring
  · rw [duration_short 15 rt (by norm_num)]
    norm_num [shortHaulTotal, round_eq]

/-- C5, witness at the boundary distance 15 km. -/
theorem C5_witness :
    calculateTruckDuration 15 "c" =
        ⟨round (((15 : ℚ) / 25) * 60 + 15 + (2 / 10) * (((15 : ℚ) / 25) * 60)), 0⟩ ∧
      (calculateTruckDuration 15 "c").duration = 58 :=
  C5_short_haul 15 "c" (by norm_num) (by norm_num)

/-- C6: within a fixed branch and a fixed speed/delay tier (same branch, same
base speed, same loading/unloading delay, same applied city-access delay, same
weight-station condition), the total duration is non-decreasing in the
distance. -/
theorem C6_monotone (d1 d2 : ℚ) (rt : String) (h12 : d1 ≤ d2)
    (hb : d1 ≤ 15 ↔ d2 ≤ 15)
    (hs : baseSpeedOf d1 = baseSpeedOf d2)
    (hl : loadingUnloadingOf d1 = loadingUnloadingOf d2)
    (hc : (if d1 < 50 then cityAccessOf d1 else 0) = (if d2 < 50 then cityAccessOf d2 else 0))
    (hw : d1 > 100 ↔ d2 > 100) :
    (calculateTruckDuration d1 rt).duration ≤ (calculateTruckDuration d2 rt).duration := by
  by_cases h : d1 ≤ 15
  · rw [duration_short d1 rt h, duration_short d2 rt (hb.mp h)]
    apply round_rat_mono
    unfold shortHaulTotal
    linarith
  · have h2 : ¬ d2 ≤ 15 := fun hh => h (hb.mpr hh)
    rw [duration_long d1 rt h, duration_long d2 rt h2]
    apply round_rat_mono
    have hdiv : d1 / baseSpeedOf d1 ≤ d2 / baseSpeedOf d2 := by
      rw [hs]
      exact (div_le_div_iff_of_pos_right (hs ▸ baseSpeedOf_pos d1)).mpr h12
    have hrest : (restStopsOf d1 : ℚ) ≤ (restStopsOf d2 : ℚ) := by
      have : restStopsOf d1 ≤ restStopsOf d2 :=
        Int.floor_le_floor ((div_le_div_iff_of_pos_right (by norm_num)).mpr hdiv)
      exact_mod_cast this
    have hw2 : (if d1 > 100 then (15 : ℚ) else 0) = (if d2 > 100 then 15 else 0) := by
      by_cases hgt : d1 > 100
      · rw [if_pos hgt, if_pos (hw.mp hgt)]
      · rw [if_neg hgt, if_neg (fun hh => hgt (hw.mpr hh))]
    unfold longHaulPreCity
    rw [hl, hw2, hc]
    linarith

/-- C6, witness: 60 km versus 70 km, both in the long-haul branch, trunk tier,
30-minute loading delay, no city-access and no weight-station delay. -/
theorem C6_witness :
    (calculateTruckDuration 60 "m").duration ≤ (calculateTruckDuration 70 "m").duration :=
  C6_monotone 60 70 "m" (by norm_num) (by norm_num) (by norm_num [baseSpeedOf])
    (by norm_num [loadingUnloadingOf]) (by norm_num) (by norm_num)

/-- C7: for every non-negative distance the estimator returns a non-negative
total duration and a non-negative rest-stop count.  (The embedded function is
total over `ℚ` by construction, matching the no-failure-mode claim.) -/
theorem C7_nonneg (d : ℚ) (rt : String) (h0 : 0 ≤ d) :
    0 ≤ (calculateTruckDuration d rt).duration ∧
      0 ≤ (calculateTruckDuration d rt).restStops := by
  by_cases h : d ≤ 15
  · rw [duration_short d rt h, restStops_short d rt h]
    refine ⟨?_, le_refl 0⟩
    rw [round_eq]
    apply Int.floor_nonneg.mpr
    unfold shortHaulTotal
    linarith
  · have hrest : (0 : ℤ) ≤ restStopsOf d := by
      apply Int.floor_nonneg.mpr
      apply div_nonneg (div_nonneg h0 (baseSpeedOf_pos d).le) (by norm_num)
    rw [duration_long d rt h, restStops_long d rt h]
    refine ⟨?_, hrest⟩
    rw [round_eq]
    apply Int.floor_nonneg.mpr
    have hdrive : 0 ≤ d / baseSpeedOf d * 60 * (6 / 5) := by
      have := div_nonneg h0 (baseSpeedOf_pos d).le
      linarith
    have hrestq : (0 : ℚ) ≤ (restStopsOf d : ℚ) * 45 := by
      have : (0 : ℚ) ≤ (restStopsOf d : ℚ) := by exact_mod_cast hrest
      linarith
    have hload : (0 : ℚ) ≤ loadingUnloadingOf d := by
      unfold loadingUnloadingOf
      split_ifs <;> norm_num
    have hwt : (0 : ℚ) ≤ (if d > 100 then (15 : ℚ) else 0) := by
      split_ifs <;> norm_num
    have hcity : (0 : ℚ) ≤ (if d < 50 then cityAccessOf d else 0) := by
      unfold cityAccessOf
      split_ifs <;> norm_num
    unfold longHaulPreCity
    linarith

/-- C7, witness at distance 0. -/
theorem C7_witness :
    0 ≤ (calculateTruckDuration 0 "n").duration ∧
      0 ≤ (calculateTruckDuration 0 "n").restStops :=
  C7_nonneg 0 "n" (by norm_num)

/-- C8: the estimator ignores the route-type hint and is deterministic: any
two hint strings give identical results for the same distance, and repeating a
call gives the same result (the embedding is a pure function of its
arguments). -/
theorem C8_hint_independent (d : ℚ) (h1 h2 : String) :
    calculateTruckDuration d h1 = calculateTruckDuration d h2 ∧
      calculateTruckDuration d h1 = calculateTruckDuration d h1 :=
  ⟨rfl, rfl⟩

/-- C9: the estimator is not monotone across the 15 km branch boundary:
15 km gives 58 total minutes while the larger distance 16 km gives only 53. -/
theorem C9_boundary_drop :
    (calculateTruckDuration 15 "p").duration = 58 ∧
      (calculateTruckDuration 16 "p").duration = 53 ∧
      (15 : ℚ) < 16 ∧ (53 : ℤ) < 58 := by
  refine ⟨?_, ?_, by norm_num, by norm_num⟩ <;> norm_num [calculateTruckDuration, round_eq]

/-- C10: the rest-stop count is 0 for every distance below 360 km and at least
1 for every distance of 360 km or more (4.5 hours at the motorway speed of
80 km/h is exactly 360 km). -/
theorem C10_first_rest_stop (d : ℚ) (rt : String) :
    (d < 360 → (calculateTruckDuration d rt).restStops = 0) ∧
      (360 ≤ d → 1 ≤ (calculateTruckDuration d rt).restStops) := by
  constructor
  · intro h360
    by_cases h : d ≤ 15
    · exact restStops_short d rt h
    · rw [restStops_long d rt h]
      push_neg at h
      unfold restStopsOf baseSpeedOf
      by_cases h100 : d > 100
      · rw [if_pos h100, div_div]
        apply Int.floor_eq_zero_iff.mpr
        constructor
        · exact div_nonneg (by linarith) (by norm_num)
        · rw [div_lt_one (by norm_num)]
          linarith
      · by_cases h50 : d > 50
        · rw [if_neg h100, if_pos h50, div_div]
          apply Int.floor_eq_zero_iff.mpr
          push_neg at h100
          constructor
          · exact div_nonneg (by linarith) (by norm_num)
          · rw [div_lt_one (by norm_num)]
            linarith
        · rw [if_neg h100, if_neg h50, div_div]
          apply Int.floor_eq_zero_iff.mpr
          push_neg at h50
          constructor
          · exact div_nonneg (by linarith) (by norm_num)
          · rw [div_lt_one (by norm_num)]
            linarith
  · intro h360
    rw [restStops_long d rt (by linarith)]
    unfold restStopsOf baseSpeedOf
    rw [if_pos (by linarith : d > 100), div_div]
    apply Int.le_floor.mpr
    rw [Int.cast_one, one_le_div (by norm_num)]
    linarith

/-- C10, witness: no rest stop at 359 km, at least one at 360 km. -/
theorem C10_witness :
    (calculateTruckDuration 359 "q").restStops = 0 ∧
      1 ≤ (calculateTruckDuration 360 "q").restStops :=
  ⟨(C10_first_rest_stop 359 "q").1 (by norm_num),
    (C10_first_rest_stop 360 "q").2 (by norm_num)⟩

end Logistics
